import Mathlib

/-!
Verification of `pytorch_lightning/accelerators/tpu.py` (class `TPUAccelerator`).

Shallow embedding: exceptions are modelled with `Except`, calls to external
native primitives (the base-class `setup`, `xm.optimizer_step`,
`xla_clip_grad_norm_`) are recorded as elements of an effect trace, and
Python numbers are modelled as rationals.  Opaque Python objects (trainer,
model, optimizer, closures, keyword-argument values) are modelled as natural
number tokens: the embedding only records which object was passed where.
-/

/-- Kinds of precision plugin that can be assigned to the accelerator.
`mixedPrecision` stands for `MixedPrecisionPlugin` (and its subclasses); the
other constructors stand for the non-mixed plugin classes of the framework. -/
inductive PrecisionPluginClass
  | precisionPlugin
  | mixedPrecision
  | tpuHalfPrecision
  | doublePrecision
deriving DecidableEq, Repr

/-- Embeds `isinstance(p, MixedPrecisionPlugin)`. -/
def isMixedPrecisionPlugin : PrecisionPluginClass → Bool
  | PrecisionPluginClass.mixedPrecision => true
  | _ => false

/-- Kinds of training-type plugin that can be assigned to the accelerator.
`singleTPU` stands for `SingleTPUPlugin`, `tpuSpawn` for `TPUSpawnPlugin`;
the other constructors stand for other training-type plugin classes. -/
inductive TrainingTypePluginClass
  | singleTPU
  | tpuSpawn
  | singleDevice
  | ddp
  | ddpSpawn
  | dataParallel
deriving DecidableEq, Repr

/-- Embeds `isinstance(t, (SingleTPUPlugin, TPUSpawnPlugin))`. -/
def isSingleTPUorTPUSpawn : TrainingTypePluginClass → Bool
  | TrainingTypePluginClass.singleTPU => true
  | TrainingTypePluginClass.tpuSpawn => true
  | _ => false

/-- A Python number of type `Union[int, float]`, with floats modelled as
rationals. -/
inductive PyNum
  | int (n : Int)
  | float (q : Rat)
deriving DecidableEq, Repr

/-- Embeds the Python conversion `float(x)` on a `Union[int, float]` value. -/
def PyNum.toFloat : PyNum → Rat
  | PyNum.int n => (n : Rat)
  | PyNum.float q => q

/-- The Lightning module attached to the accelerator; the only thing the
code under analysis reads from it is its live parameter set
(`model.parameters()`), modelled as an opaque token. -/
structure LightningModule where
  parameters : Nat
deriving DecidableEq, Repr

/-- The exceptions the unit can raise. -/
inductive PyError
  | misconfigurationException (msg : String)
  | notImplementedError
deriving DecidableEq, Repr

/-- Calls made to external collaborators, recorded as an effect trace:
the base-class `Accelerator.setup`, the native `xm.optimizer_step`
primitive, and the native `xla_clip_grad_norm_` primitive. -/
inductive Effect
  | superSetup (trainer model : Nat)
  | xmOptimizerStep (optimizer : Nat) (barrier : Bool)
      (optimizer_args : List (String × Nat))
  | xlaClipGradNorm (parameters : Nat) (max_norm : Rat) (norm_type : Rat)
deriving DecidableEq, Repr

/-- The gradient-clipping algorithm selector
(`pytorch_lightning.utilities.enums.GradClipAlgorithmType`). -/
inductive GradClipAlgorithmType
  | value
  | norm
deriving DecidableEq, Repr

/-- The state of a `TPUAccelerator` object: the collaborator references
assigned to it by the enclosing framework. -/
structure TPUAccelerator where
  precision_plugin : PrecisionPluginClass
  training_type_plugin : TrainingTypePluginClass
  lightning_module : LightningModule
deriving DecidableEq, Repr

/-- Message of the mixed-precision error raised by `setup`. -/
def ampTpuMsg : String :=
  "amp + tpu is not supported. Only bfloats are supported on TPU. Consider using TPUHalfPrecisionPlugin"

/-- Message of the training-type error raised by `setup`. -/
def tpuPluginMsg : String :=
  "TPUs only support a single tpu core or tpu spawn training."

/-- Embeds `TPUAccelerator.setup`: checks the precision plugin, then the
training-type plugin, and on success delegates to `super().setup(trainer,
model)`, recorded as a `superSetup` effect. -/
def TPUAccelerator.setup (self : TPUAccelerator) (trainer model : Nat) :
    Except PyError (List Effect) :=
  if isMixedPrecisionPlugin self.precision_plugin then
    Except.error (PyError.misconfigurationException ampTpuMsg)
  else if !(isSingleTPUorTPUSpawn self.training_type_plugin) then
    Except.error (PyError.misconfigurationException tpuPluginMsg)
  else
    Except.ok [Effect.superSetup trainer model]

/-- Embeds `TPUAccelerator.run_optimizer_step`: one call to
`xm.optimizer_step(optimizer, barrier=False, optimizer_args=...)` where the
argument bundle is the dict built from the closure entry followed by the
extra keyword arguments. -/
def TPUAccelerator.run_optimizer_step (self : TPUAccelerator)
    (optimizer : Nat) (optimizer_idx : Int) (lambda_closure : Nat)
    (kwargs : List (String × Nat)) : List Effect :=
  [Effect.xmOptimizerStep optimizer false (("closure", lambda_closure) :: kwargs)]

/-- The default value of the `norm_type` parameter of
`TPUAccelerator._clip_gradients_norm` (`norm_type: float = 2.0`). -/
def defaultNormType : Rat := 2

/-- Embeds `TPUAccelerator._clip_gradients_norm`: reads the live parameter
set of the attached module, converts the clip value to float, returns with
no effect when it is non-positive, and otherwise calls
`xla_clip_grad_norm_(parameters, max_norm, norm_type)` once. -/
def TPUAccelerator.clipGradientsNorm (self : TPUAccelerator)
    (clip_val : PyNum) (norm_type : Rat) : List Effect :=
  let model := self.lightning_module
  let parameters := model.parameters
  let grad_clip_val := clip_val.toFloat
  if grad_clip_val ≤ 0 then
    []
  else
    let max_norm := grad_clip_val
    [Effect.xlaClipGradNorm parameters max_norm norm_type]

/-- Embeds `TPUAccelerator.clip_gradients`: dispatches on the algorithm
selector, delegating to `_clip_gradients_norm` with its default `norm_type`
for `NORM`, and raising `NotImplementedError` otherwise. -/
def TPUAccelerator.clip_gradients (self : TPUAccelerator)
    (optimizer : Nat) (clip_val : PyNum)
    (gradient_clip_algorithm : GradClipAlgorithmType) :
    Except PyError (List Effect) :=
  if gradient_clip_algorithm = GradClipAlgorithmType.norm then
    Except.ok (TPUAccelerator.clipGradientsNorm self clip_val defaultNormType)
  else
    Except.error PyError.notImplementedError

/-- `true` exactly when the result is a raised `MisconfigurationException`
(the ConfigurationError of the spec). -/
def isConfigurationError : Except PyError (List Effect) → Bool
  | Except.error (PyError.misconfigurationException _) => true
  | _ => false

/-- Effect trace of a result: the recorded calls on normal return, and the
empty trace when an exception was raised before any call. -/
def exceptEffects : Except PyError (List Effect) → List Effect
  | Except.ok es => es
  | Except.error _ => []

/-- C1: as stated, the claim quantifies over every accelerator state; it
fails when the precision plugin is not mixed but the training-type plugin is
unsupported, since `setup` then still raises a `MisconfigurationException`. -/
theorem setup_configError_iff_mixed_refuted :
    ¬ (∀ (self : TPUAccelerator) (trainer model : Nat),
        isConfigurationError (TPUAccelerator.setup self trainer model) = true ↔
          isMixedPrecisionPlugin self.precision_plugin = true) := by
  intro h
  have h2 := (h ⟨PrecisionPluginClass.precisionPlugin,
    TrainingTypePluginClass.ddp, ⟨0⟩⟩ 0 0).mp (by decide)
  simp [isMixedPrecisionPlugin] at h2

/-- C1 (amended): provided the assigned training-type plugin is supported
(`SingleTPUPlugin` or `TPUSpawnPlugin`), `setup` raises a
`MisconfigurationException` if and only if the precision plugin is the
mixed-precision variant. -/
theorem setup_configError_iff_mixed_of_supported_ttp
    (self : TPUAccelerator) (trainer model : Nat)
    (h : isSingleTPUorTPUSpawn self.training_type_plugin = true) :
    isConfigurationError (TPUAccelerator.setup self trainer model) = true ↔
      isMixedPrecisionPlugin self.precision_plugin = true := by
  simp [TPUAccelerator.setup, h]
  by_cases hm : isMixedPrecisionPlugin self.precision_plugin = true <;>
    simp [hm, isConfigurationError]

/-- C1 witness: a concrete mixed-precision state with a supported
training-type plugin, on which `setup` raises the configuration error. -/
theorem setup_configError_iff_mixed_witness :
    isConfigurationError (TPUAccelerator.setup
      ⟨PrecisionPluginClass.mixedPrecision, TrainingTypePluginClass.singleTPU,
        ⟨0⟩⟩ 0 0) = true :=
  (setup_configError_iff_mixed_of_supported_ttp
    ⟨PrecisionPluginClass.mixedPrecision, TrainingTypePluginClass.singleTPU,
      ⟨0⟩⟩ 0 0 (by decide)).mpr (by decide)

/-- C2: as stated, the claim quantifies over every accelerator state; it
fails when the training-type plugin is supported but the precision plugin is
mixed, since `setup` then still raises a `MisconfigurationException`. -/
theorem setup_configError_iff_unsupported_ttp_refuted :
    ¬ (∀ (self : TPUAccelerator) (trainer model : Nat),
        isConfigurationError (TPUAccelerator.setup self trainer model) = true ↔
          isSingleTPUorTPUSpawn self.training_type_plugin = false) := by
  intro h
  have h2 := (h ⟨PrecisionPluginClass.mixedPrecision,
    TrainingTypePluginClass.singleTPU, ⟨0⟩⟩ 0 0).mp (by decide)
  simp [isSingleTPUorTPUSpawn] at h2

/-- C2 (amended): provided the assigned precision plugin is not the
mixed-precision variant, `setup` raises a `MisconfigurationException` if and
only if the training-type plugin is outside the supported set
(`SingleTPUPlugin`, `TPUSpawnPlugin`). -/
theorem setup_configError_iff_unsupported_ttp_of_not_mixed
    (self : TPUAccelerator) (trainer model : Nat)
    (h : isMixedPrecisionPlugin self.precision_plugin = false) :
    isConfigurationError (TPUAccelerator.setup self trainer model) = true ↔
      isSingleTPUorTPUSpawn self.training_type_plugin = false := by
  simp [TPUAccelerator.setup, h]
  by_cases ht : isSingleTPUorTPUSpawn self.training_type_plugin = true <;>
    simp [ht, isConfigurationError]

/-- C2 witness: a concrete non-mixed state with an unsupported
training-type plugin, on which `setup` raises the configuration error. -/
theorem setup_configError_iff_unsupported_ttp_witness :
    isConfigurationError (TPUAccelerator.setup
      ⟨PrecisionPluginClass.precisionPlugin, TrainingTypePluginClass.ddp,
        ⟨0⟩⟩ 0 0) = true :=
  (setup_configError_iff_unsupported_ttp_of_not_mixed
    ⟨PrecisionPluginClass.precisionPlugin, TrainingTypePluginClass.ddp,
      ⟨0⟩⟩ 0 0 (by decide)).mpr (by decide)

/-- C3: for every clip value whose float conversion is positive,
`clip_gradients` with algorithm `NORM` performs exactly one call to the
native `xla_clip_grad_norm_` primitive, with the live parameter set of the
attached module, the converted clip value as `max_norm`, and `norm_type`
2.0. -/
theorem clip_gradients_norm_positive_calls_native_once
    (self : TPUAccelerator) (optimizer : Nat) (clip_val : PyNum)
    (h : 0 < clip_val.toFloat) :
    TPUAccelerator.clip_gradients self optimizer clip_val
        GradClipAlgorithmType.norm =
      Except.ok [Effect.xlaClipGradNorm self.lightning_module.parameters
        clip_val.toFloat 2] := by
  simp [TPUAccelerator.clip_gradients, TPUAccelerator.clipGradientsNorm,
    defaultNormType, not_le.mpr h]

/-- C3 witness: clip value 1 on a concrete state. -/
theorem clip_gradients_norm_positive_witness :
    0 < (PyNum.float 1).toFloat ∧
      TPUAccelerator.clip_gradients
          ⟨PrecisionPluginClass.precisionPlugin,
            TrainingTypePluginClass.singleTPU, ⟨5⟩⟩ 0 (PyNum.float 1)
          GradClipAlgorithmType.norm =
        Except.ok [Effect.xlaClipGradNorm 5 (PyNum.float 1).toFloat 2] :=
  ⟨by decide, clip_gradients_norm_positive_calls_native_once
    ⟨PrecisionPluginClass.precisionPlugin,
      TrainingTypePluginClass.singleTPU, ⟨5⟩⟩ 0 (PyNum.float 1) (by decide)⟩

/-- C4: for every clip value whose float conversion is non-positive,
`clip_gradients` with algorithm `NORM` returns normally with an empty
effect trace: the native clipping primitive is not invoked and nothing is
mutated. -/
theorem clip_gradients_norm_nonpositive_noop
    (self : TPUAccelerator) (optimizer : Nat) (clip_val : PyNum)
    (h : clip_val.toFloat ≤ 0) :
    TPUAccelerator.clip_gradients self optimizer clip_val
        GradClipAlgorithmType.norm = Except.ok [] := by
  simp [TPUAccelerator.clip_gradients, TPUAccelerator.clipGradientsNorm, h]

/-- C4 witness: clip value 0 (an int) on a concrete state. -/
theorem clip_gradients_norm_nonpositive_witness :
    (PyNum.int 0).toFloat ≤ 0 ∧
      TPUAccelerator.clip_gradients
          ⟨PrecisionPluginClass.precisionPlugin,
            TrainingTypePluginClass.singleTPU, ⟨5⟩⟩ 0 (PyNum.int 0)
          GradClipAlgorithmType.norm = Except.ok [] :=
  ⟨by decide, clip_gradients_norm_nonpositive_noop
    ⟨PrecisionPluginClass.precisionPlugin,
      TrainingTypePluginClass.singleTPU, ⟨5⟩⟩ 0 (PyNum.int 0) (by decide)⟩

/-- C5: for every algorithm selector other than `NORM`, `clip_gradients`
raises `NotImplementedError`, so no native call is made and nothing is
mutated. -/
theorem clip_gradients_non_norm_not_implemented
    (self : TPUAccelerator) (optimizer : Nat) (clip_val : PyNum)
    (g : GradClipAlgorithmType) (h : g ≠ GradClipAlgorithmType.norm) :
    TPUAccelerator.clip_gradients self optimizer clip_val g =
      Except.error PyError.notImplementedError := by
  simp [TPUAccelerator.clip_gradients, h]

/-- C5 witness: the `VALUE` selector on a concrete state. -/
theorem clip_gradients_non_norm_witness :
    GradClipAlgorithmType.value ≠ GradClipAlgorithmType.norm ∧
      TPUAccelerator.clip_gradients
          ⟨PrecisionPluginClass.precisionPlugin,
            TrainingTypePluginClass.singleTPU, ⟨5⟩⟩ 0 (PyNum.float 1)
          GradClipAlgorithmType.value =
        Except.error PyError.notImplementedError :=
  ⟨by decide, clip_gradients_non_norm_not_implemented
    ⟨PrecisionPluginClass.precisionPlugin,
      TrainingTypePluginClass.singleTPU, ⟨5⟩⟩ 0 (PyNum.float 1)
    GradClipAlgorithmType.value (by decide)⟩

/-- C6: `run_optimizer_step` performs exactly one call to
`xm.optimizer_step`, with `barrier = false` and an argument bundle holding
the closure followed by every extra keyword argument. -/
theorem run_optimizer_step_calls_native_once
    (self : TPUAccelerator) (optimizer : Nat) (optimizer_idx : Int)
    (lambda_closure : Nat) (kwargs : List (String × Nat)) :
    TPUAccelerator.run_optimizer_step self optimizer optimizer_idx
        lambda_closure kwargs =
      [Effect.xmOptimizerStep optimizer false
        (("closure", lambda_closure) :: kwargs)] := rfl

/-- C7: when the precision plugin is mixed and the training-type plugin is
unsupported at the same time, the error raised by `setup` is the
mixed-precision one, showing the mixed-precision check runs first. -/
theorem setup_mixed_check_first
    (self : TPUAccelerator) (trainer model : Nat)
    (h1 : isMixedPrecisionPlugin self.precision_plugin = true)
    (h2 : isSingleTPUorTPUSpawn self.training_type_plugin = false) :
    TPUAccelerator.setup self trainer model =
      Except.error (PyError.misconfigurationException ampTpuMsg) := by
  simp [TPUAccelerator.setup, h1]

/-- C7 witness: mixed precision together with an unsupported training-type
plugin, on a concrete state. -/
theorem setup_mixed_check_first_witness :
    isMixedPrecisionPlugin PrecisionPluginClass.mixedPrecision = true ∧
      isSingleTPUorTPUSpawn TrainingTypePluginClass.ddp = false ∧
      TPUAccelerator.setup
          ⟨PrecisionPluginClass.mixedPrecision, TrainingTypePluginClass.ddp,
            ⟨0⟩⟩ 0 0 =
        Except.error (PyError.misconfigurationException ampTpuMsg) :=
  ⟨by decide, by decide, setup_mixed_check_first
    ⟨PrecisionPluginClass.mixedPrecision, TrainingTypePluginClass.ddp, ⟨0⟩⟩
    0 0 (by decide) (by decide)⟩

/-- C8: when the precision plugin is not mixed and the training-type plugin
is supported, `setup` raises no error and its whole effect is exactly one
delegation to the base-class setup with the same trainer and model. -/
theorem setup_delegates_to_super
    (self : TPUAccelerator) (trainer model : Nat)
    (h1 : isMixedPrecisionPlugin self.precision_plugin = false)
    (h2 : isSingleTPUorTPUSpawn self.training_type_plugin = true) :
    TPUAccelerator.setup self trainer model =
      Except.ok [Effect.superSetup trainer model] := by
  simp [TPUAccelerator.setup, h1, h2]

/-- C8 witness: full precision with the spawned multi-device plugin. -/
theorem setup_delegates_to_super_witness :
    isMixedPrecisionPlugin PrecisionPluginClass.precisionPlugin = false ∧
      isSingleTPUorTPUSpawn TrainingTypePluginClass.tpuSpawn = true ∧
      TPUAccelerator.setup
          ⟨PrecisionPluginClass.precisionPlugin,
            TrainingTypePluginClass.tpuSpawn, ⟨0⟩⟩ 3 7 =
        Except.ok [Effect.superSetup 3 7] :=
  ⟨by decide, by decide, setup_delegates_to_super
    ⟨PrecisionPluginClass.precisionPlugin, TrainingTypePluginClass.tpuSpawn,
      ⟨0⟩⟩ 3 7 (by decide) (by decide)⟩

/-- C9: the behaviour of `run_optimizer_step` does not depend on the
`optimizer_idx` argument: two calls differing only in that argument make
identical native calls. -/
theorem run_optimizer_step_ignores_optimizer_idx
    (self : TPUAccelerator) (optimizer : Nat) (i j : Int)
    (lambda_closure : Nat) (kwargs : List (String × Nat)) :
    TPUAccelerator.run_optimizer_step self optimizer i lambda_closure
        kwargs =
      TPUAccelerator.run_optimizer_step self optimizer j lambda_closure
        kwargs := rfl

/-- C10: every call to the native clipping primitive made through the
public `clip_gradients` operation carries `norm_type` 2.0, whatever the
optimizer, clip value and algorithm selector are. -/
theorem clip_gradients_norm_type_always_two
    (self : TPUAccelerator) (optimizer : Nat) (clip_val : PyNum)
    (g : GradClipAlgorithmType) (p : Nat) (m t : Rat)
    (h : Effect.xlaClipGradNorm p m t ∈
      exceptEffects (TPUAccelerator.clip_gradients self optimizer clip_val g)) :
    t = 2 := by
  cases g with
  | value =>
    simp [TPUAccelerator.clip_gradients, exceptEffects] at h
  | norm =>
    by_cases hc : clip_val.toFloat ≤ 0 <;>
      simp [TPUAccelerator.clip_gradients, TPUAccelerator.clipGradientsNorm,
        exceptEffects, defaultNormType, hc] at h
    exact h.2.2

/-- C10 witness: a concrete call whose trace holds a native clipping call,
whose norm order is 2. -/
theorem clip_gradients_norm_type_always_two_witness :
    Effect.xlaClipGradNorm 5 1 2 ∈
        exceptEffects (TPUAccelerator.clip_gradients
          ⟨PrecisionPluginClass.precisionPlugin,
            TrainingTypePluginClass.singleTPU, ⟨5⟩⟩ 0 (PyNum.float 1)
          GradClipAlgorithmType.norm) ∧
      (2 : Rat) = 2 :=
  ⟨by decide, clip_gradients_norm_type_always_two
    ⟨PrecisionPluginClass.precisionPlugin, TrainingTypePluginClass.singleTPU,
      ⟨5⟩⟩ 0 (PyNum.float 1) GradClipAlgorithmType.norm 5 1 2 (by decide)⟩
